import Mathlib

/-!
Shallow embedding of the pyalex query engine (src/pyalex/api.py).

Python values that flow through the parameter trees are modelled by `PVal`;
Python dicts are modelled as insertion-ordered association lists with unique
keys (Python 3 dict semantics).  The functions below are direct translations
of the source functions, keeping the source names up to Lean lexical rules
(`_flatten_kv` becomes `flattenKv`, and so on).
-/

namespace Pyalex

/-- A Python value as it occurs in pyalex parameter structures: strings,
integers, booleans, `None`, logical-expression wrappers (`not_`, `gt_`,
`lt_`, carrying their one-character token), lists, and dicts.  A dict
carries `isOr := true` when it is an instance of the `or_` subclass of
`dict` (src/pyalex/api.py, `class or_`). -/
inductive PVal where
  | str (s : String)
  | int (n : Int)
  | bool (b : Bool)
  | none
  | wrap (token : String) (value : PVal)
  | list (xs : List PVal)
  | dict (isOr : Bool) (entries : List (String × PVal))

/-- Python `k in d` / `d[k]` lookup on an association-list dict. -/
def dictFind : List (String × PVal) → String → Option PVal
  | [], _ => Option.none
  | (k1, v1) :: rest, k => if k1 = k then some v1 else dictFind rest k

/-- Python `d[k] = v`: update in place when the key exists (keeping its
position), append otherwise. -/
def dictSet : List (String × PVal) → String → PVal → List (String × PVal)
  | [], k, v => [(k, v)]
  | (k1, v1) :: rest, k, v =>
    if k1 = k then (k1, v) :: rest else (k1, v1) :: dictSet rest k v

/-- Uppercase hexadecimal digit, as CPython percent-encoding emits. -/
def hexDigit (n : Nat) : Char :=
  if n < 10 then Char.ofNat (48 + n) else Char.ofNat (55 + n)

/-- `%XX` encoding of one byte. -/
def percentByte (b : Nat) : String :=
  String.mk ['%', hexDigit (b / 16), hexDigit (b % 16)]

/-- UTF-8 bytes of one character (CPython encodes the UTF-8 bytes of a
string before percent-encoding). -/
def utf8Bytes (c : Char) : List Nat :=
  let n := c.toNat
  if n < 128 then [n]
  else if n < 2048 then [192 + n / 64, 128 + n % 64]
  else if n < 65536 then [224 + n / 4096, 128 + (n / 64) % 64, 128 + n % 64]
  else [240 + n / 262144, 128 + (n / 4096) % 64, 128 + (n / 64) % 64, 128 + n % 64]

/-- CPython `urllib.parse` always-safe bytes: ASCII letters, digits and
`_ . - ~`. -/
def alwaysSafe (b : Nat) : Bool :=
  (65 ≤ b && b ≤ 90) || (97 ≤ b && b ≤ 122) || (48 ≤ b && b ≤ 57) ||
    b == 95 || b == 46 || b == 45 || b == 126

/-- One character of `urllib.parse.quote_plus` with the default safe set:
space becomes `+`, safe bytes pass through, everything else is
percent-encoded byte by byte. -/
def quotePlusChar (c : Char) : String :=
  if c = ' ' then "+"
  else
    String.join ((utf8Bytes c).map fun b =>
      if alwaysSafe b then (Char.ofNat b).toString else percentByte b)

/-- `urllib.parse.quote_plus` with the default empty safe string. -/
def quotePlus (s : String) : String :=
  String.join (s.toList.map quotePlusChar)

mutual
/-- Python `repr` for the values of `PVal`, used (via `str`) when a list or
dict is formatted into an f-string.  A bare logical-expression wrapper has
no `__repr__` in the source, so CPython would print an object address
there; that corner is unreachable from the public filter API and is
rendered as a fixed placeholder. -/
def pyRepr : PVal → String
  | .str s => "\x27" ++ s ++ "\x27"
  | .int n => toString n
  | .bool true => "True"
  | .bool false => "False"
  | .none => "None"
  | .wrap _ _ => "<pyalex.api._LogicalExpression object>"
  | .list xs => "[" ++ String.intercalate ", " (pyReprList xs) ++ "]"
  | .dict _ es => "\x7b" ++ String.intercalate ", " (pyReprEntries es) ++ "\x7d"

def pyReprList : List PVal → List String
  | [] => []
  | v :: vs => pyRepr v :: pyReprList vs

def pyReprEntries : List (String × PVal) → List String
  | [] => []
  | (k, v) :: es => ("\x27" ++ k ++ "\x27: " ++ pyRepr v) :: pyReprEntries es
end

/-- Python `str` for the values of `PVal`.  `_LogicalExpression.__str__`
is an f-string `token` followed by `str(value)`. -/
def pyStr : PVal → String
  | .str s => s
  | .wrap t v => t ++ pyStr v
  | v => pyRepr v

/-- `_quote_oa_value` composed with the f-string interpolation its result
always undergoes in `_flatten_kv` / `_url_query`: booleans become lowercase
`true` / `false`; a logical-expression wrapper whose inner value is a
string has the inner string quote-plus-encoded and then renders as
token + encoded value; other wrappers render as token + `str(value)`;
strings are quote-plus-encoded; everything else renders via `str`. -/
def quoteOaValue : PVal → String
  | .bool b => if b then "true" else "false"
  | .wrap t (.str s) => t ++ quotePlus s
  | .wrap t v => t ++ pyStr v
  | .str s => quotePlus s
  | v => pyStr v

mutual
/-- `_flatten_kv(d, prefix, logical)`: flatten a filter/sort tree into the
API's delimiter grammar.  A dict node flattens each entry under the dotted
path and joins the entry renderings with `","`; the `logical` operator
passed down to its entries is `"|"` when the dict is an `or_` instance and
the inherited `logical` otherwise.  A list renders as
`prefix:v1<logical>v2...`; a scalar as `prefix:value`.  A list or scalar
with no prefix raises `ValueError`. -/
def flattenKv (d : PVal) (pre : Option String) (logical : String) :
    Except String String :=
  match d with
  | .dict isOr es =>
    let logicalSubd := if isOr then "|" else logical
    match flattenEntries es pre logicalSubd with
    | .ok ts => .ok (String.intercalate "," ts)
    | .error e => .error e
  | .list xs =>
    match pre with
    | Option.none => .error "prefix should be set if d is not a dict"
    | some p =>
      .ok (p ++ ":" ++ String.intercalate logical (xs.map quoteOaValue))
  | d =>
    match pre with
    | Option.none => .error "prefix should be set if d is not a dict"
    | some p => .ok (p ++ ":" ++ quoteOaValue d)

/-- The loop body of `_flatten_kv`'s dict branch: each key extends the
dotted prefix (an empty or missing prefix is falsy in Python, so the key
alone is used) and the child is flattened with the (possibly overridden)
logical operator. -/
def flattenEntries (es : List (String × PVal)) (pre : Option String)
    (logical : String) : Except String (List String) :=
  match es with
  | [] => .ok []
  | (k, v) :: rest =>
    let newPre : String :=
      match pre with
      | some p => if p ≠ "" then p ++ "." ++ k else k
      | Option.none => k
    match flattenKv v (some newPre) logical with
    | .error e => .error e
    | .ok x =>
      match flattenEntries rest pre logical with
      | .error e => .error e
      | .ok xs => .ok (x :: xs)
end

mutual
/-- `_params_merge(params, add_params)`: fold the entries of `add_params`
into `params`, key by key, in insertion order. -/
def paramsMerge (ps : List (String × PVal)) :
    List (String × PVal) → List (String × PVal)
  | [] => ps
  | (k, av) :: rest =>
    let ps2 :=
      match dictFind ps k with
      | Option.none => dictSet ps k av
      | some pv => dictSet ps k (mergeVals pv av)
    paramsMerge ps2 rest

/-- The per-key branch structure of `_params_merge` when the key is already
present: both dicts merge recursively (in place, so the existing dict keeps
its `or_` tag and the incoming tag is dropped); a non-list existing value
with a list incoming value becomes the head of that list; a list existing
value with a non-list incoming value appends it; any other combination
coalesces into a two-element list. -/
def mergeVals : PVal → PVal → PVal
  | .dict isOr pe, .dict _ ae => .dict isOr (paramsMerge pe ae)
  | .list pxs, .list axs => .list [.list pxs, .list axs]
  | .list pxs, av => .list (pxs ++ [av])
  | pv, .list axs => .list (pv :: axs)
  | pv, av => .list [pv, av]
end

mutual
/-- `_wrap_values_nested_dict(d, func)` where `func` is one of the
logical-expression constructors with token `tok`: dict values recurse
(keeping the dict, hence its class), list values wrap each element, and
any other value is wrapped directly. -/
def wrapValuesNestedDict (es : List (String × PVal)) (tok : String) :
    List (String × PVal) :=
  match es with
  | [] => []
  | (k, v) :: rest => (k, wrapValue v tok) :: wrapValuesNestedDict rest tok

def wrapValue (v : PVal) (tok : String) : PVal :=
  match v with
  | .dict isOr es => .dict isOr (wrapValuesNestedDict es tok)
  | .list xs => .list (xs.map (PVal.wrap tok))
  | v => .wrap tok v
end

/-- `BaseOpenAlex.params`: either a record-id string or a parameter dict.
(The params-as-list state used by the batch-id lookup sugar is outside the
scope of this development and is not modelled.) -/
inductive Params where
  | id (s : String)
  | dict (entries : List (String × PVal))

/-- A query builder: the lowercased class name that forms the resource
path, and the accumulated `params`. -/
structure Builder where
  basePath : String
  params : Option Params

/-- `_add_params(argument, new_params)`: start a fresh dict when `params`
is `None`; when `params` is a dict, deep-merge if the existing value at
`argument` is itself a dict (the source then calls `_params_merge`, which
requires the new value to be a dict too and raises `AttributeError`
otherwise), else assign; when `params` is a record-id string nothing
happens. -/
def Builder.addParams (b : Builder) (arg : String) (np : PVal) :
    Except String Builder :=
  match b.params with
  | Option.none => .ok ⟨b.basePath, some (.dict [(arg, np)])⟩
  | some (.id s) => .ok ⟨b.basePath, some (.id s)⟩
  | some (.dict es) =>
    match dictFind es arg with
    | some (.dict isOr pe) =>
      match np with
      | .dict _ ae =>
        .ok ⟨b.basePath, some (.dict (dictSet es arg (.dict isOr (paramsMerge pe ae))))⟩
      | _ => .error "AttributeError"
    | _ => .ok ⟨b.basePath, some (.dict (dictSet es arg np))⟩

/-- `filter(**kwargs)`: AND-merge a plain dict into the filter tree. -/
def Builder.filter (b : Builder) (kwargs : List (String × PVal)) :
    Except String Builder :=
  b.addParams "filter" (.dict false kwargs)

/-- `filter_or(**kwargs)`: merge an `or_`-tagged dict into the filter
tree. -/
def Builder.filterOr (b : Builder) (kwargs : List (String × PVal)) :
    Except String Builder :=
  b.addParams "filter" (.dict true kwargs)

/-- `filter_not(**kwargs)`: wrap every leaf with the `!` token, then merge
as a plain filter dict; `filter_gt` / `filter_lt` are identical with `>` /
`<`. -/
def Builder.filterNot (b : Builder) (kwargs : List (String × PVal)) :
    Except String Builder :=
  b.addParams "filter" (.dict false (wrapValuesNestedDict kwargs "!"))

def Builder.filterGt (b : Builder) (kwargs : List (String × PVal)) :
    Except String Builder :=
  b.addParams "filter" (.dict false (wrapValuesNestedDict kwargs ">"))

def Builder.filterLt (b : Builder) (kwargs : List (String × PVal)) :
    Except String Builder :=
  b.addParams "filter" (.dict false (wrapValuesNestedDict kwargs "<"))

/-- The loop of `_url_query` over the parameter dict: `None` values are
skipped; list values render comma-joined; `filter` and `sort` values are
flattened by `_flatten_kv`; anything else renders as a single encoded
value. -/
def urlQueryEntries : List (String × PVal) → Except String (List String)
  | [] => .ok []
  | (k, v) :: rest =>
    match v with
    | .none => urlQueryEntries rest
    | .list xs =>
      match urlQueryEntries rest with
      | .error e => .error e
      | .ok ls =>
        .ok ((k ++ "=" ++ String.intercalate "," (xs.map quoteOaValue)) :: ls)
    | v =>
      if k = "filter" ∨ k = "sort" then
        match flattenKv v Option.none "+" with
        | .error e => .error e
        | .ok s =>
          match urlQueryEntries rest with
          | .error e => .error e
          | .ok ls => .ok ((k ++ "=" ++ s) :: ls)
      else
        match urlQueryEntries rest with
        | .error e => .error e
        | .ok ls => .ok ((k ++ "=" ++ quoteOaValue v) :: ls)

/-- `_url_query` for a parameter dict: join the rendered parameters with
`&`; an empty list falls through and yields `None` (no query string). -/
def urlQuery (es : List (String × PVal)) : Except String (Option String) :=
  match urlQueryEntries es with
  | .error e => .error e
  | .ok [] => .ok Option.none
  | .ok ls => .ok (some (String.intercalate "&" ls))

/-- The `url` property: a record-id string becomes an encoded path
segment; dict params render as a query string appended after `?` (omitted
when the query is empty); `urlunparse` with the fixed scheme and netloc
produces `https://api.openalex.org/<path>`. -/
def Builder.url (b : Builder) : Except String String :=
  match b.params with
  | some (.id s) =>
    .ok ("https://api.openalex.org/" ++ b.basePath ++ "/" ++ quotePlus s)
  | some (.dict es) =>
    match urlQuery es with
    | .error e => .error e
    | .ok (some q) => .ok ("https://api.openalex.org/" ++ b.basePath ++ "?" ++ q)
    | .ok Option.none => .ok ("https://api.openalex.org/" ++ b.basePath)
  | Option.none => .ok ("https://api.openalex.org/" ++ b.basePath)

/-- `v is None` test. -/
def PVal.isNone : PVal → Bool
  | .none => true
  | _ => false

/-- The `per_page` validation shared by `get()` and `Paginator.__next__`:
`None` passes; an `int` must lie in `[1, 200]`; a Python `bool` is an
`int` whose value is `1` (`True`) or `0` (`False`); anything else fails
the `isinstance` check. -/
def perPageOk : PVal → Bool
  | .none => true
  | .int n => decide (1 ≤ n ∧ n ≤ 200)
  | .bool b => b
  | _ => false

/-- The three `_add_params` statements `get()` executes when `params` is
not a record-id string: store `per-page`, `page` and `cursor` in that
order (a `None` argument is stored as `None`). -/
def getAddChain (b : Builder) (page perPage cursor : PVal) :
    Except String Builder :=
  match b.addParams "per-page" perPage with
  | .error e => .error e
  | .ok b1 =>
    match b1.addParams "page" page with
    | .error e => .error e
    | .ok b2 => b2.addParams "cursor" cursor

/-- `get(page, per_page, cursor)` up to the point the network request is
issued: validate `per_page` first (raising `ValueError` before anything
else), then store the pagination parameters (skipped when `params` is a
record-id string), then produce the request URL.  Returns the mutated
builder and the URL that would be fetched. -/
def Builder.getRequest (b : Builder) (page perPage cursor : PVal) :
    Except String (Builder × String) :=
  if perPageOk perPage then
    match b.params with
    | some (.id _) =>
      match b.url with
      | .error e => .error e
      | .ok u => .ok (b, u)
    | _ =>
      match getAddChain b page perPage cursor with
      | .error e => .error e
      | .ok b3 =>
        match b3.url with
        | .error e => .error e
        | .ok u => .ok (b3, u)
  else .error "per_page should be an integer between 1 and 200"

/-- Python truthiness for the values of `PVal`. -/
def truthy : PVal → Bool
  | .none => false
  | .int n => n != 0
  | .bool b => b
  | .str s => s != ""
  | .list xs => !xs.isEmpty
  | .dict _ es => !es.isEmpty
  | .wrap _ _ => true

/-- `isinstance(self.params, dict) and self.params.get("sample")`: the
guard `paginate` uses to reject cursor pagination. -/
def Builder.sampleTruthy (b : Builder) : Bool :=
  match b.params with
  | some (.dict es) =>
    match dictFind es "sample" with
    | some v => truthy v
    | Option.none => false
  | _ => false

/-- The state of a `Paginator`: the method, the next pagination value
(`PVal.none` models `None`, the exhaustion sentinel), the `per_page` and
`n_max` arguments, the running count `n`, and the driven builder. -/
structure PagState where
  method : String
  nextValue : PVal
  perPage : PVal
  nMax : Option Int
  n : Nat
  builder : Builder

/-- `Paginator._is_max()`: true only when `n_max` is truthy (a nonzero
integer) and the running count has reached it. -/
def pagIsMax (s : PagState) : Bool :=
  match s.nMax with
  | some m => m != 0 && decide ((s.n : Int) ≥ m)
  | Option.none => false

/-- `paginate(method, page, per_page, cursor, n_max)`: cursor mode is
rejected when a truthy `sample` parameter is stored; otherwise the
starting value is the `cursor` argument (cursor mode) or the `page`
argument (page mode); an unknown method raises. -/
def Builder.paginate (b : Builder) (method : String) (page : Int)
    (perPage : PVal) (cursor : String) (nMax : Option Int) :
    Except String PagState :=
  if method = "cursor" then
    if b.sampleTruthy then
      .error "method should be \x27page\x27 when using sample"
    else .ok ⟨method, .str cursor, perPage, nMax, 0, b⟩
  else if method = "page" then .ok ⟨method, .int page, perPage, nMax, 0, b⟩
  else .error "Method should be \x27cursor\x27 or \x27page\x27"

/-- The parts of one decoded page that `Paginator.__next__` consumes: the
number of results, `meta["page"]`, and `meta["next_cursor"]`. -/
structure PageResp where
  len : Nat
  metaPage : Int
  metaNextCursor : PVal

/-- Outcome of one `Paginator.__next__` call: `stop` (StopIteration),
`err` (an exception), or a yielded page together with the successor state
and the URL that was requested. -/
inductive StepOut where
  | stop
  | err (msg : String)
  | yielded (s : PagState) (url : String)

def StepOut.isStop : StepOut → Bool
  | .stop => true
  | _ => false

def StepOut.isErr : StepOut → Bool
  | .err _ => true
  | _ => false

/-- The pagination-parameter store at the top of `Paginator.__next__`:
`cursor` or `page` receives the current value, an unknown method raises
`ValueError`. -/
def pagAddParam (s : PagState) : Except String Builder :=
  if s.method = "cursor" then s.builder.addParams "cursor" s.nextValue
  else if s.method = "page" then s.builder.addParams "page" s.nextValue
  else .error "Method should be \x27cursor\x27 or \x27page\x27"

/-- The conditional `per-page` store of `Paginator.__next__` (only when
`per_page` is not `None`). -/
def pagAddPerPage (b1 : Builder) (pp : PVal) : Except String Builder :=
  if pp.isNone then .ok b1 else b1.addParams "per-page" pp

/-- The next value `Paginator.__next__` computes from the returned page:
`meta["next_cursor"]` in cursor mode; in page mode `meta["page"] + 1` for
a non-empty page and `None` for an empty one. -/
def pagNextValue (s : PagState) (resp : PageResp) : PVal :=
  if s.method = "cursor" then resp.metaNextCursor
  else if resp.len > 0 then .int (resp.metaPage + 1)
  else .none

/-- `Paginator.__next__`, with the HTTP round trip abstracted by the page
`resp` the server would return: stop when the next value is `None` or the
cap is reached; store the pagination parameter; validate `per_page` (note
the source message differs by one letter from the one in `get()`); store
`per-page` when set; build the URL (the request); then advance the next
value, and the running count grows by the page length. -/
def pagStep (s : PagState) (resp : PageResp) : StepOut :=
  if s.nextValue.isNone || pagIsMax s then .stop
  else
    match pagAddParam s with
    | .error e => .err e
    | .ok b1 =>
      if perPageOk s.perPage then
        match pagAddPerPage b1 s.perPage with
        | .error e => .err e
        | .ok b2 =>
          match b2.url with
          | .error e => .err e
          | .ok u =>
            .yielded ⟨s.method, pagNextValue s resp, s.perPage, s.nMax,
              s.n + resp.len, b2⟩ u
      else .err "per_page should be a integer between 1 and 200"

/-- One decoded response, as `_get_from_url` classifies it. -/
inductive DecodeResult where
  | grouped (results : PVal) (meta : PVal)
  | listed (results : PVal) (meta : PVal)
  | single (body : List (String × PVal))

/-- `self.params and "group-by" in self.params`: for a dict this is key
membership on a non-empty dict; for a record-id string Python tests
substring containment on a non-empty string; `None` is falsy. -/
def paramsHasGroupBy : Option Params → Bool
  | Option.none => false
  | some (.id s) => s ≠ "" && (s.splitOn "group-by").length > 1
  | some (.dict es) => !es.isEmpty && (dictFind es "group-by").isSome

/-- The response-shape dispatch at the end of `_get_from_url`, applied to
an already-parsed JSON object body: a stored group-by parameter selects
the `group_by` list with `meta` (a missing key is a `KeyError`); otherwise
a `results` key selects the results list with `meta`; otherwise an `id`
key selects the single-entity decoding; otherwise
`ValueError("Unknown response format")`. -/
def decodeBody (ps : Option Params) (body : List (String × PVal)) :
    Except String DecodeResult :=
  if paramsHasGroupBy ps then
    match dictFind body "group_by", dictFind body "meta" with
    | some g, some m => .ok (.grouped g m)
    | _, _ => .error "KeyError"
  else
    match dictFind body "results" with
    | some r =>
      match dictFind body "meta" with
      | some m => .ok (.listed r m)
      | Option.none => .error "KeyError"
    | Option.none =>
      if (dictFind body "id").isSome then .ok (.single body)
      else .error "Unknown response format"

/-- `isinstance(v, list)`. -/
def PVal.isList : PVal → Bool
  | .list _ => true
  | _ => false

/-- `isinstance(v, dict)` (an `or_` instance is a dict). -/
def PVal.isDict : PVal → Bool
  | .dict _ _ => true
  | _ => false

/-- A scalar in the spec's vocabulary: neither a list nor a mapping. -/
def PVal.isScalar (v : PVal) : Bool :=
  !v.isList && !v.isDict

/-- The per-key merge rule exactly as claim C2 states it: recursive merge
for two mappings; a non-list scalar with a list makes the scalar the
list's head; a list with a non-list scalar appends; otherwise coalesce
into a two-element list ("merged recursively" refers to the same merge
procedure, modelled by delegating to `paramsMerge`). -/
def mergeValsClaimed (pv av : PVal) : PVal :=
  match pv, av with
  | .dict isOr pe, .dict _ ae => .dict isOr (paramsMerge pe ae)
  | pv, av =>
    if pv.isScalar && av.isList then
      match av with
      | .list axs => .list (pv :: axs)
      | _ => .list [pv, av]
    else if pv.isList && av.isScalar then
      match pv with
      | .list pxs => .list (pxs ++ [av])
      | _ => .list [pv, av]
    else .list [pv, av]

/-- The per-key merge rule with claim C2's two middle cases keyed on
is-a-list tests alone (the amendment the code forces): a non-list value
(scalar or mapping) with a list becomes the list's head; a list with a
non-list value (scalar or mapping) appends it. -/
def mergeValsAmended (pv av : PVal) : PVal :=
  match pv, av with
  | .dict isOr pe, .dict _ ae => .dict isOr (paramsMerge pe ae)
  | pv, av =>
    if !pv.isList && av.isList then
      match av with
      | .list axs => .list (pv :: axs)
      | _ => .list [pv, av]
    else if pv.isList && !av.isList then
      match pv with
      | .list pxs => .list (pxs ++ [av])
      | _ => .list [pv, av]
    else .list [pv, av]

/-! ### Helper lemmas -/

/-- Assigning to an absent key appends the pair. -/
theorem dictSet_append (ps : List (String × PVal)) (k : String) (v : PVal)
    (h : dictFind ps k = Option.none) : dictSet ps k v = ps ++ [(k, v)] := by
  induction ps with
  | nil => rfl
  | cons kv rest ih =>
    obtain ⟨k1, v1⟩ := kv
    by_cases hk : k1 = k
    · rw [dictFind, if_pos hk] at h
      exact absurd h (by simp)
    · rw [dictFind, if_neg hk] at h
      simp [dictSet, hk, ih h]


/-- Simultaneous bound-indexed statement: `_flatten_kv` cannot raise once a
prefix is set, and the dict-entry loop never raises of its own accord
(every child call it makes has a prefix). -/
theorem flatten_ok_strong : ∀ N : Nat,
    (∀ d : PVal, sizeOf d ≤ N → ∀ (p logical : String),
      ∃ s, flattenKv d (some p) logical = Except.ok s) ∧
    (∀ es : List (String × PVal), sizeOf es ≤ N → ∀ (pre : Option String) (logical : String),
      ∃ ls, flattenEntries es pre logical = Except.ok ls) := by
  intro N
  induction N with
  | zero =>
    constructor
    · intro d hd
      exfalso
      cases d <;> simp at hd
    · intro es hes
      exfalso
      cases es <;> simp at hes
  | succ N ih =>
    constructor
    · intro d hd p logical
      match d with
      | .dict isOr es =>
        have hsz : sizeOf es ≤ N := by simp at hd; omega
        obtain ⟨ls, hls⟩ := ih.2 es hsz (some p) (if isOr then "|" else logical)
        exact ⟨String.intercalate "," ls, by simp [flattenKv, hls]⟩
      | .list xs => exact ⟨_, by rw [flattenKv.eq_def]⟩
      | .str s => exact ⟨_, by rw [flattenKv.eq_def]⟩
      | .int n => exact ⟨_, by rw [flattenKv.eq_def]⟩
      | .bool b => exact ⟨_, by rw [flattenKv.eq_def]⟩
      | .none => exact ⟨_, by rw [flattenKv.eq_def]⟩
      | .wrap t v => exact ⟨_, by rw [flattenKv.eq_def]⟩
    · intro es hes pre logical
      match es with
      | [] => exact ⟨[], by simp [flattenEntries]⟩
      | (k, v) :: rest =>
        have hv : sizeOf v ≤ N := by simp at hes; omega
        have hr : sizeOf rest ≤ N := by simp at hes; omega
        obtain ⟨ls, hls⟩ := ih.2 rest hr pre logical
        cases pre with
        | none =>
          obtain ⟨x, hx⟩ := ih.1 v hv k logical
          exact ⟨x :: ls, by simp [flattenEntries, hx, hls]⟩
        | some p =>
          by_cases hp : p = ""
          · subst hp
            obtain ⟨x, hx⟩ := ih.1 v hv k logical
            exact ⟨x :: ls, by simp [flattenEntries, hx, hls]⟩
          · obtain ⟨x, hx⟩ := ih.1 v hv (p ++ "." ++ k) logical
            exact ⟨x :: ls, by simp [flattenEntries, hp, hx, hls]⟩

/-- The dict-entry loop of `_flatten_kv` never raises. -/
theorem flattenEntries_ok (es : List (String × PVal)) (pre : Option String)
    (logical : String) : ∃ ls, flattenEntries es pre logical = Except.ok ls :=
  (flatten_ok_strong (sizeOf es)).2 es le_rfl pre logical

/-- `_flatten_kv` with a set prefix never raises. -/
theorem flattenKv_some_ok (d : PVal) (p logical : String) :
    ∃ s, flattenKv d (some p) logical = Except.ok s :=
  (flatten_ok_strong (sizeOf d)).1 d le_rfl p logical

/-- The only error `_flatten_kv` itself can raise is the missing-prefix
`ValueError`. -/
theorem flattenKv_error_msg (d : PVal) (logical e : String)
    (h : flattenKv d Option.none logical = Except.error e) :
    e = "prefix should be set if d is not a dict" := by
  match d with
  | .dict isOr es =>
    obtain ⟨ls, hls⟩ := flattenEntries_ok es Option.none (if isOr then "|" else logical)
    simp [flattenKv, hls] at h
  | .list xs => simp [flattenKv] at h; exact h.symm
  | .str s => simp [flattenKv] at h; exact h.symm
  | .int n => simp [flattenKv] at h; exact h.symm
  | .bool b => simp [flattenKv] at h; exact h.symm
  | .none => simp [flattenKv] at h; exact h.symm
  | .wrap t v => simp [flattenKv] at h; exact h.symm

/-- The only error `_url_query` can propagate is `_flatten_kv`'s
missing-prefix `ValueError`. -/
theorem urlQueryEntries_error_msg (es : List (String × PVal)) (e : String)
    (h : urlQueryEntries es = Except.error e) :
    e = "prefix should be set if d is not a dict" := by
  induction es with
  | nil => simp [urlQueryEntries] at h
  | cons kv rest ih =>
    obtain ⟨k, v⟩ := kv
    match v with
    | .none =>
      simp only [urlQueryEntries] at h
      exact ih h
    | .list xs =>
      simp only [urlQueryEntries] at h
      cases hrest : urlQueryEntries rest with
      | error e2 => rw [hrest] at h; simp at h; subst h; exact ih hrest
      | ok ls => rw [hrest] at h; simp at h
    | .str sv =>
      simp only [urlQueryEntries] at h
      split at h
      · cases hf : flattenKv (.str sv) Option.none "+" with
        | error e2 => rw [hf] at h; simp at h; subst h; exact flattenKv_error_msg _ _ _ hf
        | ok x =>
          rw [hf] at h
          cases hrest : urlQueryEntries rest with
          | error e2 => rw [hrest] at h; simp at h; subst h; exact ih hrest
          | ok ls => rw [hrest] at h; simp at h
      · cases hrest : urlQueryEntries rest with
        | error e2 => rw [hrest] at h; simp at h; subst h; exact ih hrest
        | ok ls => rw [hrest] at h; simp at h
    | .int nv =>
      simp only [urlQueryEntries] at h
      split at h
      · cases hf : flattenKv (.int nv) Option.none "+" with
        | error e2 => rw [hf] at h; simp at h; subst h; exact flattenKv_error_msg _ _ _ hf
        | ok x =>
          rw [hf] at h
          cases hrest : urlQueryEntries rest with
          | error e2 => rw [hrest] at h; simp at h; subst h; exact ih hrest
          | ok ls => rw [hrest] at h; simp at h
      · cases hrest : urlQueryEntries rest with
        | error e2 => rw [hrest] at h; simp at h; subst h; exact ih hrest
        | ok ls => rw [hrest] at h; simp at h
    | .bool bv =>
      simp only [urlQueryEntries] at h
      split at h
      · cases hf : flattenKv (.bool bv) Option.none "+" with
        | error e2 => rw [hf] at h; simp at h; subst h; exact flattenKv_error_msg _ _ _ hf
        | ok x =>
          rw [hf] at h
          cases hrest : urlQueryEntries rest with
          | error e2 => rw [hrest] at h; simp at h; subst h; exact ih hrest
          | ok ls => rw [hrest] at h; simp at h
      · cases hrest : urlQueryEntries rest with
        | error e2 => rw [hrest] at h; simp at h; subst h; exact ih hrest
        | ok ls => rw [hrest] at h; simp at h
    | .wrap tv vv =>
      simp only [urlQueryEntries] at h
      split at h
      · cases hf : flattenKv (.wrap tv vv) Option.none "+" with
        | error e2 => rw [hf] at h; simp at h; subst h; exact flattenKv_error_msg _ _ _ hf
        | ok x =>
          rw [hf] at h
          cases hrest : urlQueryEntries rest with
          | error e2 => rw [hrest] at h; simp at h; subst h; exact ih hrest
          | ok ls => rw [hrest] at h; simp at h
      · cases hrest : urlQueryEntries rest with
        | error e2 => rw [hrest] at h; simp at h; subst h; exact ih hrest
        | ok ls => rw [hrest] at h; simp at h
    | .dict ov dv =>
      simp only [urlQueryEntries] at h
      split at h
      · cases hf : flattenKv (.dict ov dv) Option.none "+" with
        | error e2 => rw [hf] at h; simp at h; subst h; exact flattenKv_error_msg _ _ _ hf
        | ok x =>
          rw [hf] at h
          cases hrest : urlQueryEntries rest with
          | error e2 => rw [hrest] at h; simp at h; subst h; exact ih hrest
          | ok ls => rw [hrest] at h; simp at h
      · cases hrest : urlQueryEntries rest with
        | error e2 => rw [hrest] at h; simp at h; subst h; exact ih hrest
        | ok ls => rw [hrest] at h; simp at h

/-- The only error the `url` property can raise is `_flatten_kv`'s
missing-prefix `ValueError`. -/
theorem url_error_msg (b : Builder) (e : String)
    (h : b.url = Except.error e) :
    e = "prefix should be set if d is not a dict" := by
  match hb : b.params with
  | Option.none => rw [Builder.url.eq_def, hb] at h; simp at h
  | some (.id s) => rw [Builder.url.eq_def, hb] at h; simp at h
  | some (.dict es) =>
    rw [Builder.url.eq_def, hb] at h
    dsimp only at h
    cases hq : urlQuery es with
    | error e2 =>
      rw [hq] at h
      simp at h
      subst h
      rw [urlQuery.eq_def] at hq
      cases hes : urlQueryEntries es with
      | error e3 =>
        rw [hes] at hq
        simp at hq
        subst hq
        exact urlQueryEntries_error_msg _ _ hes
      | ok ls =>
        rw [hes] at hq
        cases ls <;> simp at hq
    | ok q =>
      rw [hq] at h
      cases q <;> simp at h

/-- The only error `_add_params` can raise is the `AttributeError` from
calling `_params_merge` with a non-dict addition onto a dict value. -/
theorem addParams_error_msg (b : Builder) (arg : String) (np : PVal) (e : String)
    (h : b.addParams arg np = Except.error e) : e = "AttributeError" := by
  rw [Builder.addParams] at h
  split at h
  · simp at h
  · simp at h
  · split at h
    · split at h
      · simp at h
      all_goals (simp at h; exact h.symm)
    · simp at h

/-! ### Claim C1 -/

/-- C1, counterexample: the serializer does not join an OR-tagged node's
children with a pipe.  Flattening the `or_` dict with entries `a: 1` and
`b: 2` yields `a:1,b:2` — the children are joined with a comma — and not
the `a:1|b:2` the claim predicts. -/
theorem claim_C1_counterexample :
    flattenKv (.dict true [("a", .int 1), ("b", .int 2)]) Option.none "+"
      = Except.ok "a:1,b:2"
    ∧ "a:1,b:2" ≠ "a:1|b:2" :=
  ⟨rfl, by decide⟩

/-- C1, amended: an OR tag does not change how a node's own children are
joined (always a comma, like any dict); its whole effect is to replace the
inherited logical operator by the pipe, which descendant list-valued
leaves use as their join token — flattening an `or_` dict under any
inherited operator equals flattening the same plain dict with the
inherited operator set to the pipe.  The spec's own scenario
`filter_or(institutions={"country_code": ["tw","hk","us"]},
publication_year=2022)` renders with the pipe inside the inherited list
leaf but a comma between the two children. -/
theorem claim_C1_amended :
    (∀ (es : List (String × PVal)) (pre : Option String) (logical : String),
      flattenKv (.dict true es) pre logical = flattenKv (.dict false es) pre "|")
    ∧ flattenKv (.dict true
        [("institutions", .dict false [("country_code",
            .list [.str "tw", .str "hk", .str "us"])]),
         ("publication_year", .int 2022)]) Option.none "+"
      = Except.ok "institutions.country_code:tw|hk|us,publication_year:2022" := by
  constructor
  · intro es pre logical
    simp [flattenKv.eq_def]
  · rfl

/-! ### Claim C5 -/

set_option maxRecDepth 16384 in
/-- C5: the Value Encoder renders booleans as the literal lowercase
strings `true` / `false`, and the concrete query
`Works().filter(publication_year=2020, is_oa=True).url` renders to a URL
ending with the query string `filter=publication_year:2020,is_oa:true`
(the full URL is the fixed scheme-and-host part followed by that query
string). -/
theorem claim_C5_bool_encoding :
    (∀ b : Bool, quoteOaValue (.bool b) = if b then "true" else "false")
    ∧ ((Builder.mk "works" Option.none).filter
        [("publication_year", .int 2020), ("is_oa", .bool true)]).bind Builder.url
      = Except.ok "https://api.openalex.org/works?filter=publication_year:2020,is_oa:true"
    ∧ "https://api.openalex.org/works?filter=publication_year:2020,is_oa:true"
      = "https://api.openalex.org/" ++ "works?filter=publication_year:2020,is_oa:true" := by
  refine ⟨fun b => by cases b <;> rfl, ?_, by decide⟩
  rfl

/-! ### Claim C6 -/

/-- C6, counterexample: a wrapped boolean is not encoded before the
operator token is prepended.  The encoder renders `not_(True)` as
`!True` (the Python `str` casing), while prepending the token to the
encoded inner value would give `!true`; through the `filter_not`
pipeline, `filter_not(is_oa=True)` serializes the filter as
`is_oa:!True`. -/
theorem claim_C6_counterexample :
    quoteOaValue (.wrap "!" (.bool true)) = "!True"
    ∧ "!" ++ quoteOaValue (.bool true) = "!true"
    ∧ ("!True" : String) ≠ "!true"
    ∧ flattenKv (.dict false (wrapValuesNestedDict [("is_oa", .bool true)] "!"))
        Option.none "+" = Except.ok "is_oa:!True" :=
  ⟨rfl, rfl, by decide, rfl⟩

/-- C6, amended: `filter_not` (and `filter_gt` / `filter_lt`) wraps every
leaf value — each element of a list value individually — with the
operator; at serialization time the one-character token is prepended to
the quote-plus-encoded inner value when the inner value is a string, and
to the inner value's plain `str` rendering otherwise (so booleans keep
Python `True`/`False` casing).  In particular `filter_not(x=["a","b"])`
serializes the filter as `x:!a+!b`. -/
theorem claim_C6_amended :
    (∀ tok s, quoteOaValue (.wrap tok (.str s)) = tok ++ quotePlus s)
    ∧ (∀ tok (n : Int), quoteOaValue (.wrap tok (.int n)) = tok ++ toString n)
    ∧ (∀ (es : List (String × PVal)) tok,
        wrapValuesNestedDict es tok = es.map fun kv => (kv.1, wrapValue kv.2 tok))
    ∧ (∀ tok (xs : List PVal),
        wrapValue (.list xs) tok = .list (xs.map (PVal.wrap tok)))
    ∧ (∀ tok s, wrapValue (.str s) tok = .wrap tok (.str s))
    ∧ flattenKv (.dict false
        (wrapValuesNestedDict [("x", .list [.str "a", .str "b"])] "!"))
        Option.none "+" = Except.ok "x:!a+!b" := by
  refine ⟨fun tok s => rfl, fun tok n => rfl, ?_, fun tok xs => rfl,
    fun tok s => rfl, rfl⟩
  intro es tok
  induction es with
  | nil => rfl
  | cons kv rest ih => simp [wrapValuesNestedDict, ih]

/-! ### Claim C2 -/

/-- C2, counterexample: merging a list addition onto an existing mapping
value does not follow the claim's stated rule.  The code's second branch
tests only `not isinstance(existing, list)`, so the existing mapping
becomes the head of the incoming list (`[{"x": 1}, 2, 3]`), while the
claim's rules (mapping is not a "non-list scalar", so the "otherwise"
case applies) predict the two-element coalescing `[{"x": 1}, [2, 3]]`. -/
theorem claim_C2_counterexample :
    mergeVals (.dict false [("x", .int 1)]) (.list [.int 2, .int 3])
      = .list [.dict false [("x", .int 1)], .int 2, .int 3]
    ∧ mergeValsClaimed (.dict false [("x", .int 1)]) (.list [.int 2, .int 3])
      = .list [.dict false [("x", .int 1)], .list [.int 2, .int 3]]
    ∧ paramsMerge [("a", .dict false [("x", .int 1)])] [("a", .list [.int 2, .int 3])]
      = [("a", .list [.dict false [("x", .int 1)], .int 2, .int 3])]
    ∧ PVal.list [.dict false [("x", .int 1)], .int 2, .int 3]
      ≠ .list [.dict false [("x", .int 1)], .list [.int 2, .int 3]] := by
  refine ⟨rfl, rfl, rfl, ?_⟩
  intro h
  simp at h

/-- C2, amended: `_params_merge` follows the claim's rule with the two
middle cases keyed on is-a-list tests alone — if both values are mappings
they merge recursively; if the existing value is not a list and the new
value is a list, the existing value becomes the list's head; if the
existing value is a list and the new value is not a list, the new value is
appended; otherwise the two values coalesce into a two-element list; an
absent key is inserted. -/
theorem claim_C2_amended :
    (∀ pv av, mergeVals pv av = mergeValsAmended pv av)
    ∧ (∀ (ps : List (String × PVal)) (k : String) (av : PVal),
        dictFind ps k = Option.none → paramsMerge ps [(k, av)] = ps ++ [(k, av)])
    ∧ (∀ (ps : List (String × PVal)) (k : String) (av pv : PVal),
        dictFind ps k = some pv →
        paramsMerge ps [(k, av)] = dictSet ps k (mergeVals pv av)) := by
  refine ⟨?_, ?_, ?_⟩
  · intro pv av
    cases pv <;> cases av <;> rfl
  · intro ps k av h
    rw [paramsMerge.eq_def]
    simp [h, dictSet_append ps k av h, paramsMerge]
  · intro ps k av pv h
    rw [paramsMerge.eq_def]
    simp [h, paramsMerge]

/-- C2, witness for the amended theorem: a fresh key is appended and a
doubly-set scalar key coalesces into a two-element list. -/
theorem claim_C2_witness :
    paramsMerge [("a", .int 1)] [("b", .int 2)] = [("a", .int 1), ("b", .int 2)]
    ∧ paramsMerge [("a", .int 1)] [("a", .int 2)] = [("a", .list [.int 1, .int 2])] :=
  ⟨by rw [claim_C2_amended.2.1 [("a", PVal.int 1)] "b" (PVal.int 2) rfl]; rfl,
   by rw [claim_C2_amended.2.2 [("a", PVal.int 1)] "a" (PVal.int 2) (PVal.int 1) rfl]; rfl⟩

/-! ### Claim C9 -/

/-- C9: for two distinct keys with scalar values, one filter call passing
both pairs and two chained filter calls produce the same URL (and hence
the same serialized filter string): the merge is a key union independent
of call grouping. -/
theorem claim_C9_filter_call_grouping (bp a b : String) (va vb : PVal)
    (hab : a ≠ b) (hva : va.isScalar = true) (hvb : vb.isScalar = true) :
    ((Builder.mk bp Option.none).filter [(a, va), (b, vb)]).bind Builder.url
      = (((Builder.mk bp Option.none).filter [(a, va)]).bind
          (fun x => x.filter [(b, vb)])).bind Builder.url := by
  have hbuilders : ((Builder.mk bp Option.none).filter [(a, va)]).bind
      (fun x => x.filter [(b, vb)])
      = (Builder.mk bp Option.none).filter [(a, va), (b, vb)] := by
    simp [Builder.filter, Builder.addParams, Except.bind, dictFind, dictSet,
      paramsMerge, hab]
  rw [hbuilders]

/-- C9, witness: the two call groupings agree at keys `a`, `b` with values
`1`, `2`. -/
theorem claim_C9_witness :
    ((Builder.mk "works" Option.none).filter [("a", .int 1), ("b", .int 2)]).bind
        Builder.url
      = (((Builder.mk "works" Option.none).filter [("a", .int 1)]).bind
          (fun x => x.filter [("b", .int 2)])).bind Builder.url :=
  claim_C9_filter_call_grouping "works" "a" "b" (.int 1) (.int 2)
    (by decide) rfl rfl

/-! ### Claim C10 -/

/-- C10: when `filter` has already stored a plain dict, a subsequent
`filter_or` merges its entries into that dict and the OR tag is discarded
(the stored tree stays a plain dict, so its values serialize with the
default comma and plus operators); in the reverse order the stored dict
keeps the OR tag (values serialize with the pipe). -/
theorem claim_C10_filter_or_tag :
    (∀ (bp : String) (k1 k2 : List (String × PVal)),
      ((Builder.mk bp Option.none).filter k1).bind (fun x => x.filterOr k2)
        = Except.ok ⟨bp, some (.dict [("filter", .dict false (paramsMerge k1 k2))])⟩)
    ∧ (∀ (bp : String) (k1 k2 : List (String × PVal)),
      ((Builder.mk bp Option.none).filterOr k2).bind (fun x => x.filter k1)
        = Except.ok ⟨bp, some (.dict [("filter", .dict true (paramsMerge k2 k1))])⟩)
    ∧ (((Builder.mk "works" Option.none).filter [("a", .list [.int 1, .int 2])]).bind
        (fun x => x.filterOr [("b", .list [.int 3, .int 4])])).bind Builder.url
      = Except.ok "https://api.openalex.org/works?filter=a:1+2,b:3+4"
    ∧ (((Builder.mk "works" Option.none).filterOr [("b", .list [.int 3, .int 4])]).bind
        (fun x => x.filter [("a", .list [.int 1, .int 2])])).bind Builder.url
      = Except.ok "https://api.openalex.org/works?filter=b:3|4,a:1|2" := by
  refine ⟨?_, ?_, rfl, rfl⟩
  · intro bp k1 k2
    simp [Builder.filter, Builder.filterOr, Builder.addParams, Except.bind,
      dictFind, dictSet]
  · intro bp k1 k2
    simp [Builder.filter, Builder.filterOr, Builder.addParams, Except.bind,
      dictFind, dictSet]

/-! ### Helper lemmas for get and the Paginator -/

/-- The only error the `_add_params` sequence of `get()` can raise is the
`AttributeError`. -/
theorem getAddChain_error_msg (b : Builder) (page perPage cursor : PVal)
    (e : String) (h : getAddChain b page perPage cursor = Except.error e) :
    e = "AttributeError" := by
  rw [getAddChain] at h
  cases h1 : b.addParams "per-page" perPage with
  | error e1 => rw [h1] at h; simp at h; subst h; exact addParams_error_msg _ _ _ _ h1
  | ok b1 =>
    rw [h1] at h
    dsimp only at h
    cases h2 : b1.addParams "page" page with
    | error e2 => rw [h2] at h; simp at h; subst h; exact addParams_error_msg _ _ _ _ h2
    | ok b2 =>
      rw [h2] at h
      dsimp only at h
      exact addParams_error_msg _ _ _ _ h

/-- The pagination-parameter store of a Paginator step raises only the
unknown-method `ValueError` or the `AttributeError`. -/
theorem pagAddParam_error_msg (s : PagState) (e : String)
    (h : pagAddParam s = Except.error e) :
    e = "Method should be \x27cursor\x27 or \x27page\x27" ∨ e = "AttributeError" := by
  rw [pagAddParam] at h
  split at h
  · exact Or.inr (addParams_error_msg _ _ _ _ h)
  · split at h
    · exact Or.inr (addParams_error_msg _ _ _ _ h)
    · simp at h; exact Or.inl h.symm

/-- The conditional `per-page` store raises only the `AttributeError`. -/
theorem pagAddPerPage_error_msg (b1 : Builder) (pp : PVal) (e : String)
    (h : pagAddPerPage b1 pp = Except.error e) : e = "AttributeError" := by
  rw [pagAddPerPage] at h
  split at h
  · simp at h
  · exact addParams_error_msg _ _ _ _ h

/-- Once `per_page` validation has passed, any error out of `get()` is an
`AttributeError` or `_flatten_kv`'s missing-prefix `ValueError` — never
the `per_page` message. -/
theorem getRequest_valid_error_msg (b : Builder) (page perPage cursor : PVal)
    (hpp : perPageOk perPage = true) (e : String)
    (he : b.getRequest page perPage cursor = Except.error e) :
    e = "AttributeError" ∨ e = "prefix should be set if d is not a dict" := by
  rw [Builder.getRequest] at he
  simp only [hpp, if_true] at he
  match hb : b.params with
  | some (.id s0) =>
    rw [hb] at he
    cases hu : b.url with
    | error e2 => rw [hu] at he; simp at he; subst he; exact Or.inr (url_error_msg _ _ hu)
    | ok u => rw [hu] at he; simp at he
  | Option.none =>
    rw [hb] at he
    cases hc : getAddChain b page perPage cursor with
    | error e2 =>
      rw [hc] at he; simp at he; subst he
      exact Or.inl (getAddChain_error_msg _ _ _ _ _ hc)
    | ok b3 =>
      rw [hc] at he
      dsimp only at he
      cases hu : b3.url with
      | error e3 => rw [hu] at he; simp at he; subst he; exact Or.inr (url_error_msg _ _ hu)
      | ok u => rw [hu] at he; simp at he
  | some (.dict es) =>
    rw [hb] at he
    cases hc : getAddChain b page perPage cursor with
    | error e2 =>
      rw [hc] at he; simp at he; subst he
      exact Or.inl (getAddChain_error_msg _ _ _ _ _ hc)
    | ok b3 =>
      rw [hc] at he
      dsimp only at he
      cases hu : b3.url with
      | error e3 => rw [hu] at he; simp at he; subst he; exact Or.inr (url_error_msg _ _ hu)
      | ok u => rw [hu] at he; simp at he

/-- Once `per_page` validation has passed, a Paginator step never fails
with the `per_page` message. -/
theorem pagStep_valid_ne (s : PagState) (resp : PageResp)
    (hpp : perPageOk s.perPage = true) :
    pagStep s resp ≠ StepOut.err "per_page should be a integer between 1 and 200" := by
  intro he
  rw [pagStep] at he
  split at he
  · simp at he
  · cases ha : pagAddParam s with
    | error e1 =>
      rw [ha] at he; simp at he; subst he
      rcases pagAddParam_error_msg _ _ ha with h | h <;> exact absurd h (by decide)
    | ok b1 =>
      rw [ha] at he
      dsimp only at he
      cases hb2 : pagAddPerPage b1 s.perPage with
      | error e2 =>
        rw [hb2] at he; simp at he; subst he
        exact absurd (pagAddPerPage_error_msg _ _ _ hb2) (by decide)
      | ok b2 =>
        rw [hb2] at he
        dsimp only at he
        cases hu : b2.url with
        | error e3 =>
          rw [hu] at he; simp at he; subst he
          exact absurd (url_error_msg _ _ hu) (by decide)
        | ok u => rw [hu] at he; simp at he

/-- Dissection of a successful Paginator step: the successor state keeps
the method, advances the next value via `pagNextValue`, and grows the
running count by the page length. -/
theorem pagStep_yielded_shape (s : PagState) (resp : PageResp) (s2 : PagState)
    (u : String) (h : pagStep s resp = StepOut.yielded s2 u) :
    s2.method = s.method ∧ s2.nextValue = pagNextValue s resp
      ∧ s2.n = s.n + resp.len := by
  rw [pagStep] at h
  split at h
  · simp at h
  · cases ha : pagAddParam s with
    | error e1 => rw [ha] at h; simp at h
    | ok b1 =>
      rw [ha] at h
      dsimp only at h
      split at h
      · cases hb2 : pagAddPerPage b1 s.perPage with
        | error e2 => rw [hb2] at h; simp at h
        | ok b2 =>
          rw [hb2] at h
          dsimp only at h
          cases hu : b2.url with
          | error e3 => rw [hu] at h; simp at h
          | ok u2 =>
            rw [hu] at h
            simp only [StepOut.yielded.injEq] at h
            obtain ⟨h1, h2⟩ := h
            subst h1
            exact ⟨rfl, rfl, rfl⟩
      · simp at h

/-! ### Claim C3 -/

/-- C3: a `per_page` that is neither `None` nor an integer in `[1, 200]`
makes `get()` return the `ValueError` instead of producing a request URL
(the validation is the first thing `get()` does), and a Paginator step —
in cursor mode and in page mode alike, the store step `pagAddParam`
covers both — raises the same validation error after storing the
pagination parameter but before its URL is produced; a `per_page` that is
`None` or an integer in `[1, 200]` never triggers that error in either
place, whatever the method. -/
theorem claim_C3_per_page_validation :
    ∀ (b : Builder) (page perPage cursor : PVal) (s : PagState)
      (resp : PageResp) (b1 : Builder),
    (perPageOk perPage = false →
      b.getRequest page perPage cursor
        = Except.error "per_page should be an integer between 1 and 200")
    ∧ (perPageOk perPage = true →
      b.getRequest page perPage cursor
        ≠ Except.error "per_page should be an integer between 1 and 200")
    ∧ (s.nextValue.isNone = false → pagIsMax s = false →
        pagAddParam s = Except.ok b1 →
        perPageOk s.perPage = false →
        pagStep s resp = StepOut.err "per_page should be a integer between 1 and 200")
    ∧ (perPageOk s.perPage = true →
        pagStep s resp ≠ StepOut.err "per_page should be a integer between 1 and 200") := by
  intro b page perPage cursor s resp b1
  refine ⟨?_, ?_, ?_, ?_⟩
  · intro h
    simp [Builder.getRequest, h]
  · intro h hcontra
    rcases getRequest_valid_error_msg b page perPage cursor h _ hcontra with h1 | h1 <;>
      exact absurd h1 (by decide)
  · intro hnv hmax hadd hbad
    rw [pagStep, if_neg (by simp [hnv, hmax]), hadd]
    simp [hbad]
  · intro h
    exact pagStep_valid_ne s resp h

/-- C3, witness: `per_page = 500` is rejected by `get()` before a URL is
produced, `per_page = 25` is accepted, a page-mode step and a cursor-mode
step both reject a non-integer `per_page`, and a step accepts `None`. -/
theorem claim_C3_witness :
    (Builder.mk "works" Option.none).getRequest PVal.none (PVal.int 500) PVal.none
      = Except.error "per_page should be an integer between 1 and 200"
    ∧ ((Builder.mk "works" Option.none).getRequest PVal.none (PVal.int 25) PVal.none
      ≠ Except.error "per_page should be an integer between 1 and 200")
    ∧ pagStep ⟨"page", PVal.int 1, PVal.str "bad", some 10000, 0,
        Builder.mk "works" Option.none⟩ ⟨0, 1, PVal.none⟩
      = StepOut.err "per_page should be a integer between 1 and 200"
    ∧ pagStep ⟨"cursor", PVal.str "*", PVal.str "bad", some 10000, 0,
        Builder.mk "works" Option.none⟩ ⟨0, 1, PVal.none⟩
      = StepOut.err "per_page should be a integer between 1 and 200"
    ∧ pagStep ⟨"page", PVal.int 1, PVal.none, some 10000, 0,
        Builder.mk "works" Option.none⟩ ⟨0, 1, PVal.none⟩
      ≠ StepOut.err "per_page should be a integer between 1 and 200" := by
  refine ⟨?_, ?_, ?_, ?_, ?_⟩
  · exact (claim_C3_per_page_validation (Builder.mk "works" Option.none) PVal.none
      (PVal.int 500) PVal.none
      ⟨"page", PVal.int 1, PVal.str "bad", some 10000, 0, Builder.mk "works" Option.none⟩
      ⟨0, 1, PVal.none⟩ (Builder.mk "works" Option.none)).1 (by decide)
  · exact (claim_C3_per_page_validation (Builder.mk "works" Option.none) PVal.none
      (PVal.int 25) PVal.none
      ⟨"page", PVal.int 1, PVal.str "bad", some 10000, 0, Builder.mk "works" Option.none⟩
      ⟨0, 1, PVal.none⟩ (Builder.mk "works" Option.none)).2.1 (by decide)
  · exact (claim_C3_per_page_validation (Builder.mk "works" Option.none) PVal.none
      (PVal.int 25) PVal.none
      ⟨"page", PVal.int 1, PVal.str "bad", some 10000, 0, Builder.mk "works" Option.none⟩
      ⟨0, 1, PVal.none⟩
      (Builder.mk "works" (some (.dict [("page", PVal.int 1)])))).2.2.1
      rfl rfl rfl rfl
  · exact (claim_C3_per_page_validation (Builder.mk "works" Option.none) PVal.none
      (PVal.int 25) PVal.none
      ⟨"cursor", PVal.str "*", PVal.str "bad", some 10000, 0, Builder.mk "works" Option.none⟩
      ⟨0, 1, PVal.none⟩
      (Builder.mk "works" (some (.dict [("cursor", PVal.str "*")])))).2.2.1
      rfl rfl rfl rfl
  · exact (claim_C3_per_page_validation (Builder.mk "works" Option.none) PVal.none
      (PVal.int 25) PVal.none
      ⟨"page", PVal.int 1, PVal.none, some 10000, 0, Builder.mk "works" Option.none⟩
      ⟨0, 1, PVal.none⟩ (Builder.mk "works" Option.none)).2.2.2 rfl

/-! ### Claim C4 -/

/-- C4, counterexample: the initial page-mode pagination value is the
caller's `page` argument, not always 1 — `paginate(method="page",
page=3)` starts at 3 — and a cap of `n_max = 0` is falsy in the source,
so a step whose running count has reached that cap still issues a request
instead of stopping. -/
theorem claim_C4_counterexample :
    ((Builder.mk "works" Option.none).paginate "page" 3 PVal.none "*"
        (some 10000)).map PagState.nextValue = Except.ok (PVal.int 3)
    ∧ (Except.ok (PVal.int 3) : Except String PVal) ≠ Except.ok (PVal.int 1)
    ∧ (pagStep ⟨"page", PVal.int 1, PVal.none, some 0, 0,
        Builder.mk "works" Option.none⟩ ⟨2, 1, PVal.none⟩).isStop = false := by
  refine ⟨rfl, ?_, rfl⟩
  intro h
  simp only [Except.ok.injEq, PVal.int.injEq] at h
  omega

/-- C4, amended: a page-mode Paginator starts at the caller's `page`
argument (1 by default); a step returning a non-empty page sets the next
value to the returned page number plus 1; an empty page sets it to `None`;
a step never issues a request once the next value is `None` or once a
truthy (nonzero) `n_max` cap has been reached by the running count, which
grows by the length of each yielded page. -/
theorem claim_C4_page_protocol :
    ∀ (b : Builder) (pg : Int) (pp : PVal) (cur : String) (nm : Option Int)
      (s s2 : PagState) (resp : PageResp) (u : String),
    ((b.paginate "page" pg pp cur nm).map PagState.nextValue
      = Except.ok (PVal.int pg))
    ∧ (s.nextValue.isNone = true → pagStep s resp = StepOut.stop)
    ∧ (pagIsMax s = true → pagStep s resp = StepOut.stop)
    ∧ (pagStep s resp = StepOut.yielded s2 u → s.method = "page" →
        0 < resp.len → s2.nextValue = PVal.int (resp.metaPage + 1))
    ∧ (pagStep s resp = StepOut.yielded s2 u → s.method = "page" →
        resp.len = 0 → s2.nextValue = PVal.none)
    ∧ (pagStep s resp = StepOut.yielded s2 u → s2.n = s.n + resp.len) := by
  intro b pg pp cur nm s s2 resp u
  refine ⟨?_, ?_, ?_, ?_, ?_, ?_⟩
  · rw [Builder.paginate, if_neg (by decide), if_pos rfl]
    rfl
  · intro h
    simp [pagStep, h]
  · intro h
    simp [pagStep, h]
  · intro hy hm hlen
    rw [(pagStep_yielded_shape s resp s2 u hy).2.1, pagNextValue, hm,
      if_neg (by decide), if_pos hlen]
  · intro hy hm hlen
    rw [(pagStep_yielded_shape s resp s2 u hy).2.1, pagNextValue, hm,
      if_neg (by decide), if_neg (by omega)]
  · intro hy
    exact (pagStep_yielded_shape s resp s2 u hy).2.2

/-- C4, witness: a page-mode step on page 3 returning five items advances
the next value to 4 and the running count to 5; a `None` next value and a
reached truthy cap both stop iteration. -/
theorem claim_C4_witness :
    pagStep ⟨"page", PVal.int 3, PVal.none, some 10000, 0,
        Builder.mk "works" Option.none⟩ ⟨5, 3, PVal.none⟩
      = StepOut.yielded ⟨"page", PVal.int 4, PVal.none, some 10000, 5,
          Builder.mk "works" (some (.dict [("page", PVal.int 3)]))⟩
        "https://api.openalex.org/works?page=3"
    ∧ (⟨"page", PVal.int 4, PVal.none, some 10000, 5,
          Builder.mk "works" (some (.dict [("page", PVal.int 3)]))⟩ :
        PagState).nextValue = PVal.int (3 + 1)
    ∧ pagStep ⟨"page", PVal.none, PVal.none, some 10000, 0,
        Builder.mk "works" Option.none⟩ ⟨5, 3, PVal.none⟩ = StepOut.stop
    ∧ pagStep ⟨"page", PVal.int 2, PVal.none, some 10, 10,
        Builder.mk "works" Option.none⟩ ⟨5, 3, PVal.none⟩ = StepOut.stop := by
  refine ⟨rfl, ?_, ?_, ?_⟩
  · exact (claim_C4_page_protocol (Builder.mk "works" Option.none) 3 PVal.none "*"
      (some 10000)
      ⟨"page", PVal.int 3, PVal.none, some 10000, 0, Builder.mk "works" Option.none⟩
      ⟨"page", PVal.int 4, PVal.none, some 10000, 5,
        Builder.mk "works" (some (.dict [("page", PVal.int 3)]))⟩
      ⟨5, 3, PVal.none⟩
      "https://api.openalex.org/works?page=3").2.2.2.1 rfl rfl (by decide)
  · exact (claim_C4_page_protocol (Builder.mk "works" Option.none) 3 PVal.none "*"
      (some 10000)
      ⟨"page", PVal.none, PVal.none, some 10000, 0, Builder.mk "works" Option.none⟩
      ⟨"page", PVal.int 4, PVal.none, some 10000, 5,
        Builder.mk "works" (some (.dict [("page", PVal.int 3)]))⟩
      ⟨5, 3, PVal.none⟩ "").2.1 rfl
  · exact (claim_C4_page_protocol (Builder.mk "works" Option.none) 3 PVal.none "*"
      (some 10000)
      ⟨"page", PVal.int 2, PVal.none, some 10, 10, Builder.mk "works" Option.none⟩
      ⟨"page", PVal.int 4, PVal.none, some 10000, 5,
        Builder.mk "works" (some (.dict [("page", PVal.int 3)]))⟩
      ⟨5, 3, PVal.none⟩ "").2.2.1 rfl

/-! ### Claim C7 -/

/-- C7: response decoding dispatches exactly on, in order, the presence of
a group-by parameter in the builder's parameters (decode the body's
`group_by` list with metadata), a top-level `results` key (decode a typed
entity list with metadata), a top-level `id` key (decode a single
entity), and otherwise raises the fatal unknown-format error. -/
theorem claim_C7_decode_dispatch :
    ∀ (ps : Option Params) (body : List (String × PVal)),
    (paramsHasGroupBy ps = true → ∀ g m, dictFind body "group_by" = some g →
      dictFind body "meta" = some m →
      decodeBody ps body = Except.ok (DecodeResult.grouped g m))
    ∧ (paramsHasGroupBy ps = false → ∀ r m, dictFind body "results" = some r →
      dictFind body "meta" = some m →
      decodeBody ps body = Except.ok (DecodeResult.listed r m))
    ∧ (paramsHasGroupBy ps = false → dictFind body "results" = Option.none →
      (dictFind body "id").isSome = true →
      decodeBody ps body = Except.ok (DecodeResult.single body))
    ∧ (paramsHasGroupBy ps = false → dictFind body "results" = Option.none →
      dictFind body "id" = Option.none →
      decodeBody ps body = Except.error "Unknown response format") := by
  intro ps body
  refine ⟨?_, ?_, ?_, ?_⟩
  · intro hgb g m hg hm
    simp [decodeBody, hgb, hg, hm]
  · intro hgb r m hr hm
    simp [decodeBody, hgb, hr, hm]
  · intro hgb hr hid
    simp [decodeBody, hgb, hr, hid]
  · intro hgb hr hid
    simp [decodeBody, hgb, hr, hid]

/-- C7, witness: one concrete body for each of the four dispatch arms. -/
theorem claim_C7_witness :
    decodeBody (some (.dict [("group-by", PVal.str "x")]))
        [("group_by", PVal.list []), ("meta", PVal.dict false [])]
      = Except.ok (DecodeResult.grouped (PVal.list []) (PVal.dict false []))
    ∧ decodeBody Option.none [("results", PVal.list []), ("meta", PVal.dict false [])]
      = Except.ok (DecodeResult.listed (PVal.list []) (PVal.dict false []))
    ∧ decodeBody Option.none [("id", PVal.str "W1")]
      = Except.ok (DecodeResult.single [("id", PVal.str "W1")])
    ∧ decodeBody Option.none [("foo", PVal.int 1)]
      = Except.error "Unknown response format" :=
  ⟨(claim_C7_decode_dispatch (some (.dict [("group-by", PVal.str "x")]))
      [("group_by", PVal.list []), ("meta", PVal.dict false [])]).1
      rfl (PVal.list []) (PVal.dict false []) rfl rfl,
   (claim_C7_decode_dispatch Option.none
      [("results", PVal.list []), ("meta", PVal.dict false [])]).2.1
      rfl (PVal.list []) (PVal.dict false []) rfl rfl,
   (claim_C7_decode_dispatch Option.none [("id", PVal.str "W1")]).2.2.1 rfl rfl rfl,
   (claim_C7_decode_dispatch Option.none [("foo", PVal.int 1)]).2.2.2 rfl rfl rfl⟩

/-! ### Claim C8 -/

/-- C8, counterexample: a stored falsy `sample` value is still a sample
directive in the parameters (`params["sample"] = 0`), yet cursor
pagination is accepted, because the source tests the truthiness of
`params.get("sample")` rather than key presence. -/
theorem claim_C8_counterexample :
    dictFind [("sample", PVal.int 0)] "sample" = some (PVal.int 0)
    ∧ (Builder.mk "works" (some (.dict [("sample", PVal.int 0)]))).paginate
        "cursor" 1 PVal.none "*" (some 10000)
      = Except.ok ⟨"cursor", PVal.str "*", PVal.none, some 10000, 0,
          Builder.mk "works" (some (.dict [("sample", PVal.int 0)]))⟩ :=
  ⟨rfl, rfl⟩

/-- C8, amended: `paginate(method="cursor")` raises the validation error
iff the stored `sample` value is truthy (for example a nonzero integer);
with no truthy sample it returns a cursor Paginator, and
`paginate(method="page")` always returns a page Paginator, sample or
not. -/
theorem claim_C8_sample_cursor :
    ∀ (b : Builder) (pg : Int) (pp : PVal) (cur : String) (nm : Option Int),
    (b.sampleTruthy = true → b.paginate "cursor" pg pp cur nm
        = Except.error "method should be \x27page\x27 when using sample")
    ∧ (b.sampleTruthy = false → b.paginate "cursor" pg pp cur nm
        = Except.ok ⟨"cursor", PVal.str cur, pp, nm, 0, b⟩)
    ∧ b.paginate "page" pg pp cur nm = Except.ok ⟨"page", PVal.int pg, pp, nm, 0, b⟩ := by
  intro b pg pp cur nm
  refine ⟨fun h => ?_, fun h => ?_, ?_⟩
  · rw [Builder.paginate, if_pos rfl, if_pos h]
  · rw [Builder.paginate, if_pos rfl, if_neg (by simp [h])]
  · rw [Builder.paginate, if_neg (by decide), if_pos rfl]

/-- C8, witness: a truthy sample (`sample = 50`) makes cursor paginate
raise; without a sample it returns a Paginator. -/
theorem claim_C8_witness :
    (Builder.mk "works" (some (.dict [("sample", PVal.int 50)]))).paginate
        "cursor" 1 PVal.none "*" (some 10000)
      = Except.error "method should be \x27page\x27 when using sample"
    ∧ (Builder.mk "works" Option.none).paginate "cursor" 1 PVal.none "*" (some 10000)
      = Except.ok ⟨"cursor", PVal.str "*", PVal.none, some 10000, 0,
          Builder.mk "works" Option.none⟩ :=
  ⟨(claim_C8_sample_cursor (Builder.mk "works"
      (some (.dict [("sample", PVal.int 50)]))) 1 PVal.none "*" (some 10000)).1 rfl,
   (claim_C8_sample_cursor (Builder.mk "works" Option.none) 1 PVal.none "*"
      (some 10000)).2.1 rfl⟩

end Pyalex
